import Mathlib

set_option maxRecDepth 20000

namespace VRChatModel

/-- JavaScript numbers restricted to the integer timestamps this code
manipulates, together with the NaN value produced by failed conversions. -/
inductive JSNum where
  | num (t : Int)
  | nan
deriving DecidableEq, Repr

/-- Truthiness of a JavaScript number: 0 and NaN are falsy. -/
def JSNum.truthy : JSNum → Bool
  | .num t => t ≠ 0
  | .nan => false

/-- Addition with NaN propagation. -/
def JSNum.add : JSNum → JSNum → JSNum
  | .num a, .num b => .num (a + b)
  | _, _ => .nan

/-- Multiplication with NaN propagation. -/
def JSNum.mul : JSNum → JSNum → JSNum
  | .num a, .num b => .num (a * b)
  | _, _ => .nan

/-- JavaScript strings, modelled as their character sequences so that every
operation reduces structurally. -/
abbrev JStr := List Char

/-- Character data of a Lean string literal, used to write the JavaScript
strings appearing in the source. -/
def js (s : String) : JStr := s.data

/-- Auxiliary for `jsSplit`, accumulating the current field in reverse. -/
def jsSplitAux (sep : Char) : JStr → JStr → List JStr
  | [], acc => [acc.reverse]
  | c :: rest, acc =>
    if c = sep then acc.reverse :: jsSplitAux sep rest []
    else jsSplitAux sep rest (c :: acc)

/-- Model of `String.prototype.split` with a one-character separator; like the
JavaScript original it returns at least one (possibly empty) field. -/
def jsSplit (sep : Char) (s : JStr) : List JStr := jsSplitAux sep s []

/-- Whitespace recognised by `String.prototype.trim`, restricted to the common
ASCII characters. -/
def jsIsWS (c : Char) : Bool :=
  c = ' ' || c = '\t' || c = '\n' || c = '\r'

/-- Model of `String.prototype.trim`. -/
def jsTrim (s : JStr) : JStr :=
  ((s.dropWhile jsIsWS).reverse.dropWhile jsIsWS).reverse

/-- Model of `String.prototype.toLowerCase`, restricted to ASCII. -/
def jsToLower (s : JStr) : JStr := s.map Char.toLower

/-- Decimal digit accumulation for `jsNumber`. -/
def decDigitsAux : JStr → Nat → Option Nat
  | [], acc => some acc
  | c :: rest, acc =>
    if c.isDigit then decDigitsAux rest (acc * 10 + (c.toNat - 48)) else none

/-- Parse of a non-empty all-digit string. -/
def decDigits : JStr → Option Nat
  | [] => none
  | s => decDigitsAux s 0

/-- Model of the JavaScript `Number` conversion, restricted to optionally
signed decimal integer literals; any other non-empty string yields NaN.  The
real conversion also accepts fractional and exponent forms, which the cookie
code never relies on for the integral `max-age` values it handles. -/
def jsNumber (s : JStr) : JSNum :=
  match jsTrim s with
  | [] => .num 0
  | '-' :: rest =>
    match decDigits rest with
    | some n => .num (-(n : Int))
    | none => .nan
  | '+' :: rest =>
    match decDigits rest with
    | some n => .num n
    | none => .nan
  | t =>
    match decDigits t with
    | some n => .num n
    | none => .nan

/-- Insertion into a JavaScript object: an existing key keeps its position and
receives the new value, a fresh key is appended. -/
def objInsert (m : List (JStr × α)) (k : JStr) (v : α) : List (JStr × α) :=
  if m.any (fun p => p.1 == k) then
    m.map (fun p => if p.1 == k then (k, v) else p)
  else m ++ [(k, v)]

/-- Model of `Object.fromEntries`: later entries for the same key win, keeping
the position of the first occurrence. -/
def objFromEntries (l : List (JStr × α)) : List (JStr × α) :=
  l.foldl (fun m p => objInsert m p.1 p.2) []

/-- Model of the object spread `\x7b...a, ...b\x7d`. -/
def objMerge (a b : List (JStr × α)) : List (JStr × α) :=
  b.foldl (fun m p => objInsert m p.1 p.2) a

/-- Model of the property lookup `o[k]`. -/
def objGet (m : List (JStr × α)) (k : JStr) : Option α :=
  (m.find? (fun p => p.1 == k)).map Prod.snd

/-- The cookie record produced by `deseralizeCookie`: name, value, absolute
expiry (`expires` in the source, `number | null`), and the raw attribute map;
attribute values may be `undefined` when an attribute had no `=`. -/
structure Cookie where
  name : JStr
  value : JStr
  expires : Option JSNum
  options : List (JStr × Option JStr)
deriving DecidableEq, Repr

/-- A cookie without its name, as stored in a collection
(`Omit<Cookie, "name">` in the source). -/
structure CookieVal where
  value : JStr
  expires : Option JSNum
  options : List (JStr × Option JStr)
deriving DecidableEq, Repr

/-- Forgetting the name of a cookie. -/
def Cookie.toVal (c : Cookie) : CookieVal := ⟨c.value, c.expires, c.options⟩

/-- A cookie collection as stored in the jar: a JavaScript object keyed by
cookie name. -/
abbrev Jar := List (JStr × CookieVal)

/-- Property access that is truthy only for a defined non-empty string value,
returned when truthy.  Encodes the tests `options["max-age"] ? _ : _` and
`options.expires ? _ : _`. -/
def truthyProp (o : List (JStr × Option JStr)) (k : JStr) : Option JStr :=
  match objGet o k with
  | some (some s) => if s = [] then none else some s
  | _ => none

/-- The attribute map `deseralizeCookie` builds: everything after the first
`;` of the value part, split on `=`, attribute names trimmed and
lower-cased. -/
def cookieAttrs (cookie : JStr) : List (JStr × Option JStr) :=
  let parts := jsSplit '=' cookie
  let segs := jsSplit ';' (List.intercalate (js "=") parts.tail)
  objFromEntries (segs.tail.map (fun o =>
    let ps := jsSplit '=' o
    (jsToLower (jsTrim (ps.headD [])), ps[1]?)))

/-- The expiry computation of `deseralizeCookie`: a truthy `max-age` yields
`Date.now() + Number(v) * 1000`, else a truthy `expires` is handed to the
date parser (`new Date(v).getTime()`, supplied abstractly as `parseDate`),
else `null`. -/
def computedExpires (now : Int) (parseDate : JStr → JSNum)
    (attrs : List (JStr × Option JStr)) : Option JSNum :=
  match truthyProp attrs (js "max-age") with
  | some v => some (JSNum.add (.num now) (JSNum.mul (jsNumber v) (.num 1000)))
  | none =>
    match truthyProp attrs (js "expires") with
    | some v => some (parseDate v)
    | none => none

/-- Model of `deseralizeCookie` from `src/index.ts`: split on `=` for the
name, rejoin the remainder with `=`, split on `;` for the value and the
attributes, then derive the expiry from the attributes. -/
def deseralizeCookie (now : Int) (parseDate : JStr → JSNum) (cookie : JStr) :
    Cookie :=
  let parts := jsSplit '=' cookie
  let segs := jsSplit ';' (List.intercalate (js "=") parts.tail)
  { name := parts.headD []
    value := segs.headD []
    expires := computedExpires now parseDate (cookieAttrs cookie)
    options := cookieAttrs cookie }

/-- Model of `serializeCookie`: the bare `name=value` pair. -/
def serializeCookie (name value : JStr) : JStr := name ++ js "=" ++ value

/-- Model of `serializeCookies`: `name=value` pairs joined by `; ` in object
insertion order. -/
def serializeCookies (cookies : Jar) : JStr :=
  List.intercalate (js "; ") (cookies.map (fun p => serializeCookie p.1 p.2.value))

/-- Truthiness of the stored `expires` field (`number | null`). -/
def expTruthy : Option JSNum → Bool
  | some n => n.truthy
  | none => false

/-- The comparison `expires <= Date.now()`; NaN comparisons are false. -/
def expLe (e : Option JSNum) (now : Int) : Bool :=
  match e with
  | some (.num t) => t ≤ now
  | _ => false

/-- Model of `getCookies` from `src/index.ts`.  The request's credentials mode
is abstracted to the flag `credentialsOmit`; `store` is the item the
credentials cache returns for `(origin, "cookies")`, `none` when absent or
already evicted.  The boolean of the result records whether the backing store
was consulted at all. -/
def getCookies (now : Int) (credentialsOmit : Bool) (store : Option Jar) :
    Jar × Bool :=
  if credentialsOmit then ([], false)
  else
    match store with
    | none => ([], true)
    | some cookies =>
      (objFromEntries (cookies.filter (fun p =>
        if expTruthy p.2.expires then expLe p.2.expires now else true)), true)

/-- A cache time-to-live: finitely many milliseconds or `Infinity`. -/
inductive TTL where
  | finite (ms : Int)
  | inf
deriving DecidableEq, Repr

/-- The sort key `(x.expires?.valueOf() || 0)` used by the reduce inside
`saveCookies`: `null` and NaN collapse to 0. -/
def exKey (c : CookieVal) : Int :=
  match c.expires with
  | some (.num t) => t
  | _ => 0

/-- The TTL `saveCookies` computes for a non-empty value list: the reduce
keeps the entry with the larger key, and the selected entry's `expires`
drives `expires ? Math.max(expires - Date.now(), 0) : Infinity`. -/
def ttlOfValues (now : Int) (v : CookieVal) (vs : List CookieVal) : TTL :=
  let chosen := vs.foldl (fun a b => if exKey a > exKey b then a else b) v
  match chosen.expires with
  | some (.num t) => if t ≠ 0 then .finite (max (t - now) 0) else .inf
  | _ => .inf

/-- The merge-then-write core of `saveCookies`, over the existing collection
`E` and the collection `P` parsed from the headers: spread `P` over `E` and,
unless the merged object is empty, write it with the reduce-derived TTL. -/
def mergeAndWrite (now : Int) (E P : Jar) : Option (Jar × TTL) :=
  let cookies := objMerge E P
  match cookies.map Prod.snd with
  | [] => none
  | v :: vs => some (cookies, ttlOfValues now v vs)

/-- Model of `saveCookies` from `src/index.ts`: merge the currently valid
collection (read back with credentials included) with the parsed `Set-Cookie`
headers and, unless the merged collection is empty, write it back with the
TTL derived from the entry the reduce selects.  The result is `none` when no
write is performed, else the written collection with its TTL. -/
def saveCookies (now : Int) (parseDate : JStr → JSNum) (store : Option Jar)
    (setCookieHeaders : List JStr) : Option (Jar × TTL) :=
  mergeAndWrite now (getCookies now false store).1
    (objFromEntries (setCookieHeaders.map (fun h =>
      let c := deseralizeCookie now parseDate h
      (c.name, c.toVal))))

/-- The store contents after a response is processed: `saveCookies` either
leaves the entry alone or overwrites it with the merged collection.  Eviction
of the entry by its TTL is the cache engine's concern and is reflected by the
caller's choice of `store` for the next operation. -/
def applySave (now : Int) (parseDate : JStr → JSNum) (store : Option Jar)
    (setCookieHeaders : List JStr) : Option Jar :=
  match saveCookies now parseDate store setCookieHeaders with
  | none => store
  | some r => some r.1

/-- Model of the cookie-injection request interceptor: the value written into
the `cookie` header, together with the flag recording whether the jar was
read. -/
def injectCookieHeader (now : Int) (credentialsOmit : Bool)
    (store : Option Jar) : JStr × Bool :=
  let r := getCookies now credentialsOmit store
  (serializeCookies r.1, r.2)

/-- Result of one factor-verification call as `login` inspects it:
`data?.verified` (the payload may be absent) and the transport status. -/
structure FactorResult where
  dataVerified : Option Bool
  status : Int
deriving DecidableEq, Repr

/-- The truthiness test `value?.data?.verified` on an optional factor
result. -/
def factorVerifiedTruthy : Option FactorResult → Bool
  | some f => f.dataVerified == some true
  | none => false

/-- The test `value?.response.status === 429` on an optional factor result. -/
def factor429 : Option FactorResult → Bool
  | some f => f.status == 429
  | none => false

/-- Outcome of the two-factor branch of `login`. -/
inductive LoginResult where
  | err (message : String) (code : Int)
  | refetch
deriving DecidableEq, Repr

/-- The computation of `verified` in `login`:
`factors.find(v => v?.data?.verified)?.data?.verified ?? false`. -/
def verifiedOfFactors (factors : List (Option FactorResult)) : Bool :=
  match factors.find? factorVerifiedTruthy with
  | some (some f) => f.dataVerified.getD false
  | _ => false

/-- The computation of `tooManyAttempts` in `login`:
`factors.find(v => v?.response.status === 429)?.response.status === 429`. -/
def tooManyOfFactors (factors : List (Option FactorResult)) : Bool :=
  match factors.find? factor429 with
  | some (some f) => f.status == 429
  | _ => false

/-- Model of the classification of the settled factor results in `login` (the
`verified` / `tooManyAttempts` computations): `none` means some factor
verified, so login proceeds to re-fetch the identity; `some (m, c)` is the
structured error issued. -/
def classifyFactors (factors : List (Option FactorResult)) :
    Option (String × Int) :=
  if !(verifiedOfFactors factors) then
    some (if tooManyOfFactors factors
          then ("Too many attempts, try again later", 429)
          else ("Invalid two-factor authentication code", 400))
  else none

/-- Model of the code-resolution step of `login`: an explicit provider wins;
else a non-empty secret synthesizes a TOTP provider (`totp` abstracts
`TOTP.generate(secret).otp`); else no code is available. -/
def resolveCode (totp : JStr → JStr) (twoFactorSecret twoFactorCode : Option JStr) :
    Option JStr :=
  match twoFactorSecret, twoFactorCode with
  | some s, none => if s = [] then none else some (totp s)
  | _, c => c

/-- Model of the factor fan-out of `login`: `verify2Fa` is dispatched only for
a 6-character code, the single strategy slot otherwise holding `undefined`.
`verify2FaRes` abstracts the network call's settled result. -/
def dispatchFactors (verify2FaRes : JStr → FactorResult) (code : JStr) :
    List (Option FactorResult) :=
  [if code.length == 6 then some (verify2FaRes code) else none]

/-- Model of the branch of `login` taken when the identity fetch reports
`requiresTwoFactorAuth`: resolve a code, dispatch the applicable factor
verifications, classify.  The second component counts the verification calls
actually dispatched. -/
def loginTwoFactor (totp : JStr → JStr)
    (twoFactorSecret twoFactorCode : Option JStr)
    (verify2FaRes : JStr → FactorResult) : LoginResult × Nat :=
  match resolveCode totp twoFactorSecret twoFactorCode with
  | none => (.err "Missing two-factor authentication, incomplete login flow" 400, 0)
  | some code =>
    let factors := dispatchFactors verify2FaRes code
    let calls := factors.countP Option.isSome
    match classifyFactors factors with
    | some mc => (.err mc.1 mc.2, calls)
    | none => (.refetch, calls)

/-- The largest expiry key of a non-empty list of collection values (`null`
and NaN counting as 0), as a closed-form description of what the reduce in
`saveCookies` maximises. -/
def maxExKey : List CookieVal → Int
  | [] => 0
  | v :: vs => vs.foldl (fun m b => max m (exKey b)) (exKey v)

/-- Specification-side serialization: the bare `name=value` pairs joined by
`; ` in mapping order, as the spec words it. -/
def specSerialize (pairs : List (JStr × JStr)) : JStr :=
  List.intercalate (js "; ") (pairs.map (fun p => p.1 ++ js "=" ++ p.2))

theorem exKey_pick (a b : CookieVal) :
    exKey (if exKey a > exKey b then a else b) = max (exKey a) (exKey b) := by
  by_cases h : exKey a > exKey b
  · rw [if_pos h, max_eq_left (le_of_lt h)]
  · rw [if_neg h, max_eq_right (not_lt.mp h)]

theorem exKey_foldl_pick (v : CookieVal) (vs : List CookieVal) :
    exKey (vs.foldl (fun a b => if exKey a > exKey b then a else b) v) =
      vs.foldl (fun m b => max m (exKey b)) (exKey v) := by
  induction vs generalizing v with
  | nil => rfl
  | cons b vs ih =>
    simp only [List.foldl_cons]
    rw [ih, exKey_pick]

theorem ttlOfValues_eq_max (now : Int) (v : CookieVal) (vs : List CookieVal) :
    ttlOfValues now v vs =
      if maxExKey (v :: vs) ≠ 0
      then .finite (max (maxExKey (v :: vs) - now) 0) else .inf := by
  have hM : maxExKey (v :: vs) =
      exKey (vs.foldl (fun a b => if exKey a > exKey b then a else b) v) :=
    (exKey_foldl_pick v vs).symm
  rw [hM]
  unfold ttlOfValues
  generalize (vs.foldl (fun a b => if exKey a > exKey b then a else b) v) = chosen
  cases hc : chosen.expires with
  | none => simp [exKey, hc]
  | some n =>
    cases n with
    | num t => simp [exKey, hc]
    | nan => simp [exKey, hc]

theorem mergeAndWrite_ttl (now : Int) (E P : Jar) (jar : Jar) (ttl : TTL)
    (h : mergeAndWrite now E P = some (jar, ttl)) :
    ttl = if maxExKey (jar.map Prod.snd) ≠ 0
          then .finite (max (maxExKey (jar.map Prod.snd) - now) 0) else .inf := by
  have h2 : (match (objMerge E P).map Prod.snd with
      | [] => (none : Option (Jar × TTL))
      | v :: vs => some (objMerge E P, ttlOfValues now v vs)) = some (jar, ttl) := h
  clear h
  cases hm : (objMerge E P).map Prod.snd with
  | nil => rw [hm] at h2; exact absurd h2 (by simp)
  | cons v vs =>
    rw [hm] at h2
    simp only [Option.some.injEq, Prod.mk.injEq] at h2
    obtain ⟨hjar, httl⟩ := h2
    rw [← httl, ← hjar, hm]
    exact ttlOfValues_eq_max now v vs

theorem mergeAndWrite_nil (now : Int) (E : Jar) :
    mergeAndWrite now E [] =
      match E with
      | [] => none
      | c :: cs => some (c :: cs, ttlOfValues now c.2 (cs.map Prod.snd)) := by
  cases E <;> rfl

theorem any_of_perm {α} (p : α → Bool) {l m : List α} (h : l.Perm m) :
    l.any p = m.any p := by
  cases hl : l.any p <;> cases hm : m.any p <;>
    simp_all [List.any_eq_true, h.mem_iff]
  · obtain ⟨x, hx, hpx⟩ := hm
    exact absurd hpx (by simp [hl x hx])
  · obtain ⟨x, hx, hpx⟩ := hl
    exact absurd hpx (by simp [hm x hx])

theorem verifiedOfFactors_eq_any (factors : List (Option FactorResult)) :
    verifiedOfFactors factors = factors.any factorVerifiedTruthy := by
  unfold verifiedOfFactors
  cases hf : factors.find? factorVerifiedTruthy with
  | none =>
    have hno : ∀ x ∈ factors, ¬ factorVerifiedTruthy x := fun x hx => by
      simpa using List.find?_eq_none.1 hf x hx
    have hany : factors.any factorVerifiedTruthy = false := by
      simp only [Bool.eq_false_iff, Ne, List.any_eq_true]
      rintro ⟨x, hx, hpx⟩
      exact hno x hx hpx
    simp [hany]
  | some x =>
    have hpx := List.find?_some hf
    have hmem := List.mem_of_find?_eq_some hf
    have hany : factors.any factorVerifiedTruthy = true :=
      List.any_eq_true.mpr ⟨x, hmem, hpx⟩
    rw [hany]
    cases x with
    | none => simp [factorVerifiedTruthy] at hpx
    | some f =>
      simp only [factorVerifiedTruthy, beq_iff_eq] at hpx
      simp [hpx]

theorem tooManyOfFactors_eq_any (factors : List (Option FactorResult)) :
    tooManyOfFactors factors = factors.any factor429 := by
  unfold tooManyOfFactors
  cases hf : factors.find? factor429 with
  | none =>
    have hno : ∀ x ∈ factors, ¬ factor429 x := fun x hx => by
      simpa using List.find?_eq_none.1 hf x hx
    have hany : factors.any factor429 = false := by
      simp only [Bool.eq_false_iff, Ne, List.any_eq_true]
      rintro ⟨x, hx, hpx⟩
      exact hno x hx hpx
    simp [hany]
  | some x =>
    have hpx := List.find?_some hf
    have hmem := List.mem_of_find?_eq_some hf
    have hany : factors.any factor429 = true :=
      List.any_eq_true.mpr ⟨x, hmem, hpx⟩
    rw [hany]
    cases x with
    | none => simp [factor429] at hpx
    | some f => exact hpx

theorem classifyFactors_eq (factors : List (Option FactorResult)) :
    classifyFactors factors =
      if factors.any factorVerifiedTruthy then none
      else if factors.any factor429
        then some ("Too many attempts, try again later", 429)
        else some ("Invalid two-factor authentication code", 400) := by
  unfold classifyFactors
  rw [verifiedOfFactors_eq_any, tooManyOfFactors_eq_any]
  cases hv : factors.any factorVerifiedTruthy <;>
    cases h9 : factors.any factor429 <;> simp

/-- C1: the claim fails on the code.  `getCookies` keeps the entry whose
`expires` lies in the past and drops the one still in the future: at read
time `now = 10` a stored cookie `a` that expired at 5 is returned in full,
while a stored cookie `b` expiring at 100 is removed from the caller's view.
The filter's comparison is inverted with respect to the specified (and
clearly intended) behaviour. -/
theorem getCookies_filter_inverted :
    getCookies 10 false (some [(js "a", ⟨js "1", some (.num 5), []⟩)]) =
      ([(js "a", ⟨js "1", some (.num 5), []⟩)], true)
    ∧ getCookies 10 false (some [(js "b", ⟨js "2", some (.num 100), []⟩)]) =
      ([], true) := by decide

/-- C2, counterexample: for headers carrying cookies that expire at 100000
and 200000 (with `now = 0`), the TTL passed to the cache write is 200000 —
the largest remaining lifetime — and not the claimed
`max(minExpiresAt - now, 0) = 100000`. -/
theorem saveCookies_ttl_not_min :
    (saveCookies 0 (fun _ => JSNum.nan) none
        [js "a=1; Max-Age=100", js "b=2; Max-Age=200"]).map Prod.snd =
      some (.finite 200000)
    ∧ TTL.finite 200000 ≠ TTL.finite (max (100000 - 0) 0) := by decide

/-- C2, amended: whenever `saveCookies` performs a write, the TTL it passes is
`max(maxExpiresAt - now, 0)` where `maxExpiresAt` is the largest `expiresAt`
across the merged collection's entries with `null` (and NaN) counting as 0;
when that largest key is 0 — in particular when no entry has a positive
expiry — the TTL is unbounded (`Infinity`). -/
theorem saveCookies_ttl_is_max (now : Int) (parseDate : JStr → JSNum)
    (store : Option Jar) (hdrs : List JStr) (jar : Jar) (ttl : TTL)
    (h : saveCookies now parseDate store hdrs = some (jar, ttl)) :
    ttl = if maxExKey (jar.map Prod.snd) ≠ 0
          then .finite (max (maxExKey (jar.map Prod.snd) - now) 0)
          else .inf :=
  mergeAndWrite_ttl now _ _ jar ttl h

theorem saveCookies_ttl_is_max_witness :
    TTL.finite 100000 =
      (if maxExKey [⟨js "1", some (.num 100000), [(js "max-age", some (js "100"))]⟩] ≠ 0
       then TTL.finite
         (max (maxExKey [⟨js "1", some (.num 100000), [(js "max-age", some (js "100"))]⟩] - 0) 0)
       else TTL.inf) :=
  saveCookies_ttl_is_max 0 (fun _ => JSNum.nan) none [js "a=1; Max-Age=100"]
    [(js "a", ⟨js "1", some (.num 100000), [(js "max-age", some (js "100"))]⟩)]
    (TTL.finite 100000) (by decide)

/-- C3: classification of the settled factor results follows the fixed
priority — any result with `verified = true` makes the login succeed (the
identity fetch is re-issued), else any result with transport status 429
yields the rate-limit error, else the invalid-code error — and, being a
function of which results occur rather than of their order, it is invariant
under any permutation of the result list. -/
theorem classifyFactors_priority (factors : List (Option FactorResult)) :
    (classifyFactors factors =
      if factors.any factorVerifiedTruthy then none
      else if factors.any factor429
        then some ("Too many attempts, try again later", 429)
        else some ("Invalid two-factor authentication code", 400))
    ∧ ∀ factors₂ : List (Option FactorResult), factors.Perm factors₂ →
        classifyFactors factors = classifyFactors factors₂ := by
  refine ⟨classifyFactors_eq factors, fun factors₂ hperm => ?_⟩
  rw [classifyFactors_eq factors, classifyFactors_eq factors₂,
    any_of_perm factorVerifiedTruthy hperm, any_of_perm factor429 hperm]

theorem classifyFactors_priority_witness :
    classifyFactors [some ⟨some true, 200⟩, none] =
      classifyFactors [none, some ⟨some true, 200⟩] :=
  (classifyFactors_priority [some ⟨some true, 200⟩, none]).2
    [none, some ⟨some true, 200⟩]
    (List.Perm.swap none (some (⟨some true, 200⟩ : FactorResult)) [])

/-- C4: a request that opts out of credentials never consults the backing
store (the read flag is false), gets an empty serialized `cookie` header, and
the injected header is therefore independent of the jar's contents. -/
theorem injectCookieHeader_omit (now : Int) (store store₂ : Option Jar) :
    getCookies now true store = ([], false)
    ∧ injectCookieHeader now true store = (js "", false)
    ∧ injectCookieHeader now true store = injectCookieHeader now true store₂ :=
  ⟨rfl, rfl, rfl⟩

/-- C5, counterexample: a response with no `Set-Cookie` headers is not a
no-op when the origin's jar already holds a (valid) cookie — `saveCookies`
re-writes the cache entry with the merged existing collection and a
recomputed TTL. -/
theorem saveCookies_empty_headers_writes :
    saveCookies 0 (fun _ => JSNum.nan)
        (some [(js "a", ⟨js "1", none, []⟩)]) [] =
      some ([(js "a", ⟨js "1", none, []⟩)], .inf)
    ∧ saveCookies 0 (fun _ => JSNum.nan)
        (some [(js "a", ⟨js "1", none, []⟩)]) [] ≠ none := by decide

/-- C5, amended: with no `Set-Cookie` headers, `saveCookies` skips the write
exactly when the currently valid collection read back from the store is
empty; otherwise it writes, and what it writes is exactly that read-back
collection (with a recomputed TTL). -/
theorem saveCookies_empty_headers (now : Int) (parseDate : JStr → JSNum)
    (store : Option Jar) :
    (saveCookies now parseDate store [] = none ↔
      (getCookies now false store).1 = [])
    ∧ ∀ jar ttl, saveCookies now parseDate store [] = some (jar, ttl) →
        jar = (getCookies now false store).1 := by
  have h : saveCookies now parseDate store [] =
      mergeAndWrite now (getCookies now false store).1 [] := rfl
  rw [h, mergeAndWrite_nil]
  cases hE : (getCookies now false store).1 with
  | nil => exact ⟨by simp, by simp⟩
  | cons c cs =>
    refine ⟨by simp, fun jar ttl hjt => ?_⟩
    simp only [Option.some.injEq, Prod.mk.injEq] at hjt
    exact hjt.1.symm

theorem saveCookies_empty_headers_witness :
    [(js "a", ⟨js "1", none, []⟩)] =
      (getCookies 0 false (some [(js "a", ⟨js "1", none, []⟩)])).1 :=
  (saveCookies_empty_headers 0 (fun _ => JSNum.nan)
      (some [(js "a", ⟨js "1", none, []⟩)])).2
    [(js "a", ⟨js "1", none, []⟩)] TTL.inf (by decide)

/-- C6: when the identity fetch reports that a factor is required and neither
a secret nor a code provider was supplied, login fails with the missing-2FA
structured error, with zero factor-verification calls dispatched. -/
theorem loginTwoFactor_missing (totp : JStr → JStr)
    (verify2FaRes : JStr → FactorResult) :
    loginTwoFactor totp none none verify2FaRes =
      (.err "Missing two-factor authentication, incomplete login flow" 400, 0) :=
  rfl

/-- C7: `saveCookies` merges rather than replaces.  Saving `a=1` and then
later `b=2` for the same origin leaves the jar holding both cookies (the
first write's TTL is `Infinity`, so its entry is still present for the second
write to merge with), and re-saving the same name (`a=2`) overwrites the
earlier value in place. -/
theorem saveCookies_merges (now₁ now₂ : Int) (parseDate : JStr → JSNum) :
    saveCookies now₁ parseDate none [js "a=1"] =
      some ([(js "a", ⟨js "1", none, []⟩)], .inf)
    ∧ applySave now₂ parseDate (applySave now₁ parseDate none [js "a=1"])
        [js "b=2"] =
      some [(js "a", ⟨js "1", none, []⟩), (js "b", ⟨js "2", none, []⟩)]
    ∧ applySave now₂ parseDate (applySave now₁ parseDate none [js "a=1"])
        [js "a=2"] =
      some [(js "a", ⟨js "2", none, []⟩)] :=
  ⟨rfl, rfl, rfl⟩

/-- C8, counterexample: a present but non-numeric `max-age` does not degrade
to a session cookie: the code still takes the max-age branch and
`Number("xyz")` turns the expiry into NaN rather than the claimed `null`. -/
theorem deseralizeCookie_malformed_maxage :
    (deseralizeCookie 0 (fun _ => JSNum.nan) (js "a=b; max-age=xyz")).expires =
      some JSNum.nan
    ∧ some JSNum.nan ≠ (none : Option JSNum) := by decide

/-- C8, amended: `deseralizeCookie` is total (never raises), and derives the
expiry as the code does: a present non-empty `max-age` always decides,
yielding `now + Number(v)*1000` — NaN when `v` is not numeric — and taking
precedence over `expires`; otherwise a present non-empty `expires` yields
exactly the date parser's result (NaN when unparseable); the expiry is `null`
exactly when both attributes are absent or empty. -/
theorem deseralizeCookie_expires_rule (now : Int) (parseDate : JStr → JSNum)
    (s : JStr) :
    ((deseralizeCookie now parseDate s).expires = none ↔
      truthyProp (cookieAttrs s) (js "max-age") = none
      ∧ truthyProp (cookieAttrs s) (js "expires") = none)
    ∧ (∀ v, truthyProp (cookieAttrs s) (js "max-age") = some v →
        (deseralizeCookie now parseDate s).expires =
          some (JSNum.add (.num now) (JSNum.mul (jsNumber v) (.num 1000))))
    ∧ (∀ v, truthyProp (cookieAttrs s) (js "max-age") = none →
        truthyProp (cookieAttrs s) (js "expires") = some v →
        (deseralizeCookie now parseDate s).expires = some (parseDate v)) := by
  have he : (deseralizeCookie now parseDate s).expires =
      computedExpires now parseDate (cookieAttrs s) := rfl
  rw [he]
  unfold computedExpires
  cases hma : truthyProp (cookieAttrs s) (js "max-age") with
  | some v => simp [hma]
  | none =>
    cases hex : truthyProp (cookieAttrs s) (js "expires") with
    | some v => simp [hma, hex]
    | none => simp [hma, hex]

theorem deseralizeCookie_expires_rule_witness :
    (deseralizeCookie 0 (fun _ => JSNum.nan) (js "a=b; max-age=7")).expires =
      some (JSNum.add (.num 0) (JSNum.mul (jsNumber (js "7")) (.num 1000))) :=
  (deseralizeCookie_expires_rule 0 (fun _ => JSNum.nan) (js "a=b; max-age=7")).2.1
    (js "7") (by decide)

/-- C9: `serializeCookies` emits exactly the `name=value` pairs joined by
`; ` in insertion order of the mapping, and depends only on names and values:
no attribute captured during parsing (nor the expiry) ever reappears in the
serialized header. -/
theorem serializeCookies_pairs_only (jar : Jar) :
    serializeCookies jar = specSerialize (jar.map (fun p => (p.1, p.2.value)))
    ∧ ∀ jar₂ : Jar,
        jar.map (fun p => (p.1, p.2.value)) =
          jar₂.map (fun p => (p.1, p.2.value)) →
        serializeCookies jar = serializeCookies jar₂ := by
  have hchar : ∀ j : Jar,
      serializeCookies j = specSerialize (j.map (fun p => (p.1, p.2.value))) := by
    intro j
    unfold serializeCookies specSerialize serializeCookie
    rw [List.map_map]
    rfl
  exact ⟨hchar jar, fun jar₂ hnv => by rw [hchar jar, hchar jar₂, hnv]⟩

theorem serializeCookies_pairs_only_witness :
    serializeCookies
        [(js "a", ⟨js "1", some (.num 5), [(js "max-age", some (js "7"))]⟩)] =
      serializeCookies [(js "a", ⟨js "1", none, []⟩)] :=
  (serializeCookies_pairs_only
      [(js "a", ⟨js "1", some (.num 5), [(js "max-age", some (js "7"))]⟩)]).2
    [(js "a", ⟨js "1", none, []⟩)] (by decide)

/-- C10: when the resolved two-factor code does not have exactly 6
characters, no factor-verification call is dispatched at all and login
returns the invalid-code structured error. -/
theorem loginTwoFactor_wrong_length (totp : JStr → JStr)
    (secret codeOpt : Option JStr) (verify2FaRes : JStr → FactorResult)
    (code : JStr) (hres : resolveCode totp secret codeOpt = some code)
    (hlen : code.length ≠ 6) :
    loginTwoFactor totp secret codeOpt verify2FaRes =
      (.err "Invalid two-factor authentication code" 400, 0) := by
  have h6 : (code.length == 6) = false := beq_eq_false_iff_ne.mpr hlen
  have hd : dispatchFactors verify2FaRes code = [none] := by
    unfold dispatchFactors
    rw [h6]
    rfl
  unfold loginTwoFactor
  rw [hres]
  simp only [hd]
  rfl

theorem loginTwoFactor_wrong_length_witness :
    loginTwoFactor (fun _ => []) none (some (js "12345"))
        (fun _ => ⟨some true, 200⟩) =
      (.err "Invalid two-factor authentication code" 400, 0) :=
  loginTwoFactor_wrong_length (fun _ => []) none (some (js "12345"))
    (fun _ => ⟨some true, 200⟩) (js "12345") rfl (by decide)

end VRChatModel
